import Mathlib

/-!
Verification of the hexbackup backup/restore orchestrator (`marzban_panel.py`)
against its natural-language specification.

The Python source is shallowly embedded:

* file trees are modelled as flat maps from relative path components to file
  contents (`FileMap`), which captures exactly what the copy operations of the
  source manipulate at the file level;
* the effectful restore sequencer `run_restore_process` is modelled as a pure
  function from an environment (the outcomes the external world would give to
  each command the code issues) to a success flag together with the ordered
  trace of the external commands it performed;
* strings are Lean `String`s and all path predicates from the source
  (`startswith`, `in`, `os.path.basename`, `lstrip`) are embedded as
  executable functions over the underlying character lists.
-/

/-- Boolean embedding of Python `s.startswith(p)` / relative-path prefix tests. -/
def strHasPrefix (p s : String) : Bool := decide (p.data <+: s.data)

/-- Boolean embedding of Python `sub in s` (substring containment). -/
def strContains (sub s : String) : Bool := decide (sub.data <:+: s.data)

/-- Embedding of Python `s.lower()` (ASCII case folding on each character). -/
def lowerStr (s : String) : String := String.mk (s.data.map Char.toLower)

/-- Embedding of `os.path.basename`: the characters after the last slash. -/
def basename (p : String) : String :=
  String.mk ((p.data.reverse.takeWhile (fun c => !(c == '/'))).reverse)

/-- Embedding of `os.path.join(base, name)` for a single component. -/
def dirJoin (base name : String) : String := base ++ "/" ++ name

/-- Embedding of Python `s.lstrip(slash)`: drop all leading slashes. -/
def lstripSlash (s : String) : String :=
  String.mk (s.data.dropWhile (fun c => c == '/'))

/-- Join a base path with a list of further components, as repeated
`os.path.join`. -/
def joinComponents (base : String) (cs : List String) : String :=
  cs.foldl (fun acc c => dirJoin acc c) base

theorem strHasPrefix_iff (p s : String) :
    strHasPrefix p s = true ↔ p.data <+: s.data := by
  simp [strHasPrefix]

theorem strHasPrefix_eq_false_iff (p s : String) :
    strHasPrefix p s = false ↔ ¬ (p.data <+: s.data) := by
  simp [strHasPrefix]

theorem str_data_append (s t : String) : (s ++ t).data = s.data ++ t.data :=
  String.data_append ..

/-- A member path that extends a base lying under `database/` or `filesystem/`
cannot also be an absolute path (one beginning with a slash). -/
theorem slash_not_prefix (pre m : String) (hpre : pre.data <+: m.data)
    (h1 : ¬ ("/".data <+: pre.data)) (h2 : ¬ (pre.data <+: "/".data)) :
    strHasPrefix "/" m = false := by
  rw [strHasPrefix_eq_false_iff]
  intro hcon
  rcases List.prefix_or_prefix_of_prefix hcon hpre with h | h
  · exact h1 h
  · exact h2 h

theorem joinComponents_cons (base c : String) (cs : List String) :
    joinComponents base (c :: cs) = joinComponents (dirJoin base c) cs := rfl

theorem prefix_dirJoin (base name : String) :
    base.data <+: (dirJoin base name).data := by
  unfold dirJoin
  rw [str_data_append, str_data_append, List.append_assoc]
  exact List.prefix_append ..

theorem prefix_joinComponents (cs : List String) (base : String) :
    base.data <+: (joinComponents base cs).data := by
  induction cs generalizing base with
  | nil => exact List.prefix_refl _
  | cons c cs ih =>
      rw [joinComponents_cons]
      exact (prefix_dirJoin base c).trans (ih (dirJoin base c))

/-! ## Filesystem model

A source tree (and a staged tree) is a flat map from a relative path, given as
a list of path components, to the file's content.  An entry with an empty
component list stands for the case in which the configured source path is
itself a regular file (the `shutil.copy2` branch of `run_full_backup`). -/

abbrev FileMap := List (List String × String)

/-- Lookup a file by its relative component path. -/
def pLookup (fs : FileMap) (p : List String) : Option String :=
  (fs.find? (fun e => e.1 == p)).map (fun e => e.2)

/-! ## Snapshot engine (`run_full_backup`, lines 393-414)

The source passes `ignore_specific_dirs` as the `ignore` callback of
`shutil.copytree` for every configured source directory.  The callback ignores
its `contents` argument entirely and decides from the directory path alone. -/

/-- Embedding of `ignore_specific_dirs` from `run_full_backup`: skip the
children named `mysql` and `logs` of any directory whose basename is
`marzban` and whose full path contains the substring `lib`. -/
def ignore_specific_dirs (directory : String) (contents : List String) :
    List String :=
  if basename directory == "marzban" && strContains "lib" directory then
    ["mysql", "logs"]
  else
    []

/-- Whether a file at relative components `cs` below the directory `dir`
survives the recursive copy: at each level, `shutil.copytree` drops the
children returned by the ignore callback.  The callback never reads its
`contents` argument, so passing `[]` is faithful. -/
def keptPath (dir : String) (cs : List String) : Bool :=
  match cs with
  | [] => true
  | c :: rest =>
      if (ignore_specific_dirs dir []).contains c then false
      else keptPath (dirJoin dir c) rest

/-- Embedding of one `shutil.copytree(file_path, dest, ignore=ignore_specific_dirs)`
call of `run_full_backup`: the staged copy holds exactly the source files whose
paths survive the ignore callback. -/
def snapshotTree (root : String) (files : FileMap) : FileMap :=
  files.filter (fun f => keptPath root f.1)

/-! ## Restore-side filesystem copy (`run_restore_process`, line 518)

`shutil.copytree(fs_restore_path, "/", dirs_exist_ok=True)` merges the staged
tree into the root filesystem: staged files overwrite files at the same path,
every other pre-existing file is left in place, and nothing is deleted first.
(When a staged directory collides with a pre-existing regular file Python
raises; the model covers the file-level behaviour.) -/

def copytreeMergeInto (src dest : FileMap) : FileMap :=
  src ++ dest.filter (fun e => !(src.any (fun s => s.1 == e.1)))

/-! ## Backup sequencer staging layout (`run_full_backup`, lines 359-418)

The staging directory receives `database/<name>.sql` for every database kept
by the dump loop, and `filesystem/<source path with leading slashes stripped>`
for every configured source path that exists.  `shutil.make_archive(..., 'zip',
backup_temp_dir)` then stores exactly the staged files under their paths
relative to the staging directory: no wrapper directory, no absolute paths. -/

def EXCLUDED_DATABASES : List String :=
  ["information_schema", "mysql", "performance_schema", "sys"]

def FILES_TO_BACKUP : List String := ["/var/lib/marzban", "/opt/marzban"]

/-- The external facts one backup run depends on: whether a database container
was found, whether database credentials are configured, the rows printed by
`SHOW DATABASES` (after its header line), and the file tree found at each
configured source path (`none` when the path does not exist). -/
structure BackupEnv where
  container : Option String
  configHasDb : Bool
  showDatabases : List String
  sourceTree : String → Option FileMap

/-- Archive members contributed by the database-dump half of
`run_full_backup`: one `database/<name>.sql` per non-excluded database, and
none at all when no container was found or no credentials are configured. -/
def dumpMembers (e : BackupEnv) : List String :=
  if e.container.isSome && e.configHasDb then
    (e.showDatabases.filter (fun d => !(EXCLUDED_DATABASES.contains d))).map
      (fun d => "database/" ++ d ++ ".sql")
  else []

/-- Archive members contributed by one configured source path: the files of
its snapshot, each stored under `filesystem/` plus the source path stripped of
its leading slashes. -/
def fsMembersAt (e : BackupEnv) (absPath : String) : List String :=
  match e.sourceTree absPath with
  | none => []
  | some files =>
      (snapshotTree absPath files).map
        (fun f => joinComponents ("filesystem/" ++ lstripSlash absPath) f.1)

/-- The member paths of the archive produced by one `run_full_backup` run. -/
def archiveMembers (e : BackupEnv) : List String :=
  dumpMembers e ++ fsMembersAt e "/var/lib/marzban" ++ fsMembersAt e "/opt/marzban"

/-! ## Container discovery (`find_database_container`, lines 258-280)

The source pipes `docker ps --format` (one `name image` line per running
container) through `grep -E` for `mysql|mariadb`; a non-zero grep exit is
caught and turned into `None`.  It then returns the first field of the first
matching line whose lowercase form contains `marzban`, and `None` when no
matching line does. -/

def grepDb (lines : List String) : List String :=
  lines.filter (fun l => strContains "mysql" l || strContains "mariadb" l)

/-- `'marzban' in container.lower()` from the loop body. -/
def marzbanLine (l : String) : Bool := strContains "marzban" (lowerStr l)

/-- `container.split()[0]`: the first whitespace-delimited token. -/
def firstToken (s : String) : String :=
  String.mk (s.data.takeWhile (fun c => !(c == ' ')))

def find_database_container (lines : List String) : Option String :=
  let ms := grepDb lines
  if ms.isEmpty then none
  else
    match ms.find? marzbanLine with
    | some l => some (firstToken l)
    | none => none

/-! ## Restore sequencer (`run_restore_process`, lines 491-572, and the
`do-restore` branch of `main`, lines 714-726)

The sequencer is embedded as a pure function from a `RestoreEnv` — the archive
member list plus the outcome the outside world would give to each external
command — to the success flag it returns together with the ordered trace of
external commands it issued.  `down` / `upAll` are `docker compose down` /
`docker compose up -d` on the whole service group (`run_marzban_command`);
`startDbAlone` would be a `docker start <container>` of the database container
alone (`start_database_container`), which exists in the source but is what the
trace lets us observe the sequencer never calls. -/

inductive Ev where
  | down : Bool → Ev
  | upAll : Bool → Ev
  | startDbAlone : String → Ev
  | copyFsToRoot : Ev
  | clearMysqlDir : Ev
  | findContainer : Option String → Ev
  | testConn : Bool → Ev
  | importSql : String → Bool → Ev
  | dropCreateSchema : String → Ev
  deriving DecidableEq, Repr

def Ev.isStartDbAlone : Ev → Bool
  | Ev.startDbAlone _ => true
  | _ => false

def Ev.isUpAll : Ev → Bool
  | Ev.upAll _ => true
  | _ => false

def Ev.isDown : Ev → Bool
  | Ev.down _ => true
  | _ => false

def Ev.isDropCreate : Ev → Bool
  | Ev.dropCreateSchema _ => true
  | _ => false

def Ev.isImportEv : Ev → Bool
  | Ev.importSql _ _ => true
  | _ => false

/-- Every import the sequencer could issue targets the `marzban` schema. -/
def Ev.importOnlyMarzban : Ev → Bool
  | Ev.importSql n _ => n == "marzban"
  | _ => true

/-- The archive contents and external-command outcomes one restore run sees.
`downOk k` / `upOk k` is the result of the `k`-th `docker compose down` /
`up -d` of the run. -/
structure RestoreEnv where
  zipNames : List String
  configHasDb : Bool
  downOk : Nat → Bool
  upOk : Nat → Bool
  container : Option String
  connOk : Bool
  importOk : Bool

/-- `any(f.startswith(filesystem-slash) for f in zf.namelist())`, line 500. -/
def hasFilesystemMember (names : List String) : Bool :=
  names.any (fun f => strHasPrefix "filesystem/" f)

/-- `os.path.isdir(db_restore_path) and os.listdir(db_restore_path)`,
line 522: some archive member lies strictly below `database/`. -/
def dbDirNonempty (names : List String) : Bool :=
  names.any (fun f => strHasPrefix "database/" f && !(f == "database/"))

/-- `os.path.exists(os.path.join(db_restore_path, marzban-dot-sql))`, line 548. -/
def hasMarzbanSql (names : List String) : Bool :=
  names.any (fun f => f == "database/marzban.sql")

/-- The `try:` body of `run_restore_process`.  Each `Except.error` leaf is one
`raise` site (or a propagated `CalledProcessError`) and carries the number of
`up -d` calls made so far — needed to index the safety-net `up -d` of the
`except` block — together with the trace up to the failure.  Note the
filesystem copy is unconditionally reached once validation passed, because a
member starting with `filesystem/` guarantees `extractall` created that
directory. -/
def tryBody (e : RestoreEnv) : Except (Nat × List Ev) (List Ev) :=
  if !hasFilesystemMember e.zipNames then
    Except.error (0, [])
  else if !e.downOk 0 then
    Except.error (0, [Ev.down false])
  else if dbDirNonempty e.zipNames then
    if !e.configHasDb then
      Except.error (0, [Ev.down true, Ev.copyFsToRoot])
    else if !e.upOk 0 then
      Except.error (1, [Ev.down true, Ev.copyFsToRoot, Ev.clearMysqlDir,
        Ev.upAll false])
    else
      match e.container with
      | none =>
          Except.error (1, [Ev.down true, Ev.copyFsToRoot, Ev.clearMysqlDir,
            Ev.upAll true, Ev.findContainer none])
      | some c =>
          if !e.connOk then
            Except.error (1, [Ev.down true, Ev.copyFsToRoot, Ev.clearMysqlDir,
              Ev.upAll true, Ev.findContainer (some c), Ev.testConn false])
          else if hasMarzbanSql e.zipNames && !e.importOk then
            Except.error (1, [Ev.down true, Ev.copyFsToRoot, Ev.clearMysqlDir,
              Ev.upAll true, Ev.findContainer (some c), Ev.testConn true,
              Ev.importSql "marzban" false])
          else
            Except.ok ([Ev.down true, Ev.copyFsToRoot, Ev.clearMysqlDir,
              Ev.upAll true, Ev.findContainer (some c), Ev.testConn true]
              ++ (if hasMarzbanSql e.zipNames then
                    [Ev.importSql "marzban" e.importOk] else [])
              ++ [Ev.down (e.downOk 1), Ev.upAll (e.upOk 1)])
  else
    Except.ok [Ev.down true, Ev.copyFsToRoot, Ev.down (e.downOk 1),
      Ev.upAll (e.upOk 0)]

/-- `run_restore_process`: the `except` block performs one best-effort
`up -d` (result ignored) and returns `False`; the `try` body returning
normally yields `True` even when the final restart failed. -/
def run_restore_process (e : RestoreEnv) : Bool × List Ev :=
  match tryBody e with
  | Except.ok tr => (true, tr)
  | Except.error (nUp, tr) => (false, tr ++ [Ev.upAll (e.upOk nUp)])

/-- The `do-restore` branch of `main` (lines 723-726): exit 0 when
`run_restore_process` returned `True`, exit 1 otherwise. -/
def do_restore_exit (e : RestoreEnv) : Nat :=
  if (run_restore_process e).1 then 0 else 1

/-! ## Concrete restore environments used in counterexamples and witnesses -/

/-- A well-formed archive with dumps and filesystem data, every external
command succeeding. -/
def envAllOk : RestoreEnv :=
  { zipNames := ["filesystem/opt/marzban/docker-compose.yml",
                 "filesystem/var/lib/marzban/xray_config.json",
                 "database/marzban.sql"]
  , configHasDb := true
  , downOk := fun _ => true
  , upOk := fun _ => true
  , container := some "marzban-mysql-1"
  , connOk := true
  , importOk := true }

/-- As `envAllOk`, but the final restart's `down` returns `b1` and its
`up -d` returns `b2`. -/
def envFinalRestart (b1 b2 : Bool) : RestoreEnv :=
  { zipNames := ["filesystem/opt/marzban/docker-compose.yml",
                 "database/marzban.sql"]
  , configHasDb := true
  , downOk := fun n => if n == 0 then true else b1
  , upOk := fun n => if n == 0 then true else b2
  , container := some "marzban-mysql-1"
  , connOk := true
  , importOk := true }

/-- An archive that contains only database dumps (under both the layout the
spec names and the layout the code produces) and no `filesystem/` member. -/
def envDbOnlyArchive : RestoreEnv :=
  { zipNames := ["db_dumps/marzban.sql", "database/marzban.sql"]
  , configHasDb := true
  , downOk := fun _ => true
  , upOk := fun _ => true
  , container := some "marzban-mysql-1"
  , connOk := true
  , importOk := true }

/-- An archive whose database directory holds dumps, but none of them named
`marzban.sql`. -/
def envOtherDumpsOnly : RestoreEnv :=
  { zipNames := ["filesystem/opt/marzban/.env", "database/shadowsocks.sql"]
  , configHasDb := true
  , downOk := fun _ => true
  , upOk := fun _ => true
  , container := some "marzban-mysql-1"
  , connOk := true
  , importOk := true }

/-- A run whose initial `docker compose down` fails, exercising the
safety-net path of the `except` block. -/
def envDownFails : RestoreEnv :=
  { zipNames := ["filesystem/opt/marzban/docker-compose.yml"]
  , configHasDb := true
  , downOk := fun _ => false
  , upOk := fun _ => true
  , container := some "marzban-mysql-1"
  , connOk := true
  , importOk := true }

/-- Helper: the full trace of a restore run over an archive with both
filesystem data and a `marzban.sql` dump in which every checked step
succeeds.  The two trailing events are the final restart, whose outcomes are
not checked by the sequencer. -/
theorem restore_trace_full (e : RestoreEnv) (c : String)
    (h1 : hasFilesystemMember e.zipNames = true)
    (h2 : dbDirNonempty e.zipNames = true)
    (h3 : e.configHasDb = true)
    (h4 : e.downOk 0 = true)
    (h5 : e.upOk 0 = true)
    (h6 : e.container = some c)
    (h7 : e.connOk = true)
    (h8 : hasMarzbanSql e.zipNames = true)
    (h9 : e.importOk = true) :
    run_restore_process e =
      (true, [Ev.down true, Ev.copyFsToRoot, Ev.clearMysqlDir, Ev.upAll true,
              Ev.findContainer (some c), Ev.testConn true,
              Ev.importSql "marzban" true,
              Ev.down (e.downOk 1), Ev.upAll (e.upOk 1)]) := by
  unfold run_restore_process tryBody
  simp [h1, h2, h3, h4, h5, h6, h7, h8, h9]

/-- Helper: every event a restore run can emit is a service-group command,
a copy, a directory clear, a discovery, a connection test, or an import of
the `marzban` schema — never a lone database-container start and never an
explicit schema drop/recreate. -/
theorem run_restore_events_benign (e : RestoreEnv) :
    ((run_restore_process e).2.all
      (fun ev => !ev.isStartDbAlone && !ev.isDropCreate && ev.importOnlyMarzban))
      = true := by
  unfold run_restore_process tryBody
  cases hc : e.container <;> split_ifs <;>
    simp [List.all_append, Ev.isStartDbAlone, Ev.isDropCreate,
      Ev.importOnlyMarzban]

/-- Claim C1 is false of the code: on a restore of an archive with database
dumps in which every command succeeds, the sequencer starts the full service
group (`docker compose up -d`, the fourth event) before the dump import (the
seventh event), and no event of the whole run ever starts the database
container alone. -/
theorem C1_counterexample :
    run_restore_process envAllOk =
      (true, [Ev.down true, Ev.copyFsToRoot, Ev.clearMysqlDir, Ev.upAll true,
              Ev.findContainer (some "marzban-mysql-1"), Ev.testConn true,
              Ev.importSql "marzban" true, Ev.down true, Ev.upAll true]) ∧
    ((run_restore_process envAllOk).2.all (fun ev => !ev.isStartDbAlone))
      = true := by
  constructor <;> decide

/-- Claim C1 (amended): after restoring the filesystem the sequencer starts
the full service group — never the database container alone — to let MySQL
initialize, imports the dump only after that start, and finishes with a
`down` / `up -d` restart of the full group. -/
theorem C1_amended (e : RestoreEnv) (c : String)
    (h1 : hasFilesystemMember e.zipNames = true)
    (h2 : dbDirNonempty e.zipNames = true)
    (h3 : e.configHasDb = true)
    (h4 : e.downOk 0 = true)
    (h5 : e.upOk 0 = true)
    (h6 : e.container = some c)
    (h7 : e.connOk = true)
    (h8 : hasMarzbanSql e.zipNames = true)
    (h9 : e.importOk = true) :
    run_restore_process e =
      (true, [Ev.down true, Ev.copyFsToRoot, Ev.clearMysqlDir, Ev.upAll true,
              Ev.findContainer (some c), Ev.testConn true,
              Ev.importSql "marzban" true,
              Ev.down (e.downOk 1), Ev.upAll (e.upOk 1)]) ∧
    ((run_restore_process e).2.all (fun ev => !ev.isStartDbAlone)) = true := by
  refine ⟨restore_trace_full e c h1 h2 h3 h4 h5 h6 h7 h8 h9, ?_⟩
  rw [restore_trace_full e c h1 h2 h3 h4 h5 h6 h7 h8 h9]
  simp [Ev.isStartDbAlone]

/-- Witness for C1 (amended) at a concrete all-succeeding environment. -/
theorem C1_amended_witness :
    run_restore_process envAllOk =
      (true, [Ev.down true, Ev.copyFsToRoot, Ev.clearMysqlDir, Ev.upAll true,
              Ev.findContainer (some "marzban-mysql-1"), Ev.testConn true,
              Ev.importSql "marzban" true, Ev.down true, Ev.upAll true]) ∧
    ((run_restore_process envAllOk).2.all (fun ev => !ev.isStartDbAlone))
      = true :=
  C1_amended envAllOk "marzban-mysql-1" (by decide) (by decide) rfl rfl rfl rfl
    rfl (by decide) rfl

/-- Claim C3 is false of the code: an archive holding only database dumps
(both under the spec's `db_dumps/` name and under the code's `database/` name)
is rejected by the structural validation — the run fails with no `down` ever
issued, only the safety-net `up -d` — although the claim requires such an
archive to be accepted. -/
theorem C3_counterexample :
    run_restore_process envDbOnlyArchive = (false, [Ev.upAll true]) ∧
    (envDbOnlyArchive.zipNames.any (fun f => strHasPrefix "db_dumps/" f))
      = true := by
  constructor <;> decide

/-- Claim C3 (amended): `run_restore_process` fails its structural validation
exactly when no archive member starts with `filesystem/` — an archive with
only database dumps is therefore rejected — and on validation failure no
service-stop is ever issued (the whole trace is the single safety-net
`up -d`), while once validation passes the very first command is the
service-group `down`. -/
theorem C3_amended (e : RestoreEnv) :
    (hasFilesystemMember e.zipNames = false →
        run_restore_process e = (false, [Ev.upAll (e.upOk 0)])) ∧
    (hasFilesystemMember e.zipNames = true →
        ((run_restore_process e).2.head?.map Ev.isDown) = some true) := by
  constructor
  · intro h
    unfold run_restore_process tryBody
    simp [h]
  · intro h
    unfold run_restore_process tryBody
    cases hc : e.container <;> split_ifs <;>
      simp_all [Ev.isDown]

/-- Witness for C3 (amended): the dumps-only archive is rejected before any
`down`, and a well-formed archive's first command is the `down`. -/
theorem C3_amended_witness :
    run_restore_process envDbOnlyArchive = (false, [Ev.upAll true]) ∧
    ((run_restore_process envAllOk).2.head?.map Ev.isDown) = some true :=
  ⟨(C3_amended envDbOnlyArchive).1 (by decide),
   (C3_amended envAllOk).2 (by decide)⟩

/-- Claim C7 is false of the code: in a fully successful restore the dump is
imported (an import event occurs) yet no event of the run drops or recreates
a schema — the dump is streamed into the `marzban` database as-is. -/
theorem C7_counterexample :
    run_restore_process (envFinalRestart true true) =
      (true, [Ev.down true, Ev.copyFsToRoot, Ev.clearMysqlDir, Ev.upAll true,
              Ev.findContainer (some "marzban-mysql-1"), Ev.testConn true,
              Ev.importSql "marzban" true, Ev.down true, Ev.upAll true]) ∧
    ((run_restore_process (envFinalRestart true true)).2.all
        (fun ev => !ev.isDropCreate)) = true ∧
    ((run_restore_process (envFinalRestart true true)).2.any
        (fun ev => ev.isImportEv)) = true := by
  refine ⟨by decide, by decide, by decide⟩

/-- Claim C7 (amended): the restore never issues an explicit drop/recreate of
the schema; instead the MySQL data directory is cleared (third event) before
the services are started, and only after that start, the container discovery
and a successful connection test is the `marzban.sql` dump streamed directly
into the `marzban` schema (seventh event). -/
theorem C7_amended (e : RestoreEnv) (c : String)
    (h1 : hasFilesystemMember e.zipNames = true)
    (h2 : dbDirNonempty e.zipNames = true)
    (h3 : e.configHasDb = true)
    (h4 : e.downOk 0 = true)
    (h5 : e.upOk 0 = true)
    (h6 : e.container = some c)
    (h7 : e.connOk = true)
    (h8 : hasMarzbanSql e.zipNames = true)
    (h9 : e.importOk = true) :
    run_restore_process e =
      (true, [Ev.down true, Ev.copyFsToRoot, Ev.clearMysqlDir, Ev.upAll true,
              Ev.findContainer (some c), Ev.testConn true,
              Ev.importSql "marzban" true,
              Ev.down (e.downOk 1), Ev.upAll (e.upOk 1)]) ∧
    ((run_restore_process e).2.all (fun ev => !ev.isDropCreate)) = true := by
  refine ⟨restore_trace_full e c h1 h2 h3 h4 h5 h6 h7 h8 h9, ?_⟩
  rw [restore_trace_full e c h1 h2 h3 h4 h5 h6 h7 h8 h9]
  simp [Ev.isDropCreate]

/-- Witness for C7 (amended) at a concrete all-succeeding environment. -/
theorem C7_amended_witness :
    run_restore_process (envFinalRestart true true) =
      (true, [Ev.down true, Ev.copyFsToRoot, Ev.clearMysqlDir, Ev.upAll true,
              Ev.findContainer (some "marzban-mysql-1"), Ev.testConn true,
              Ev.importSql "marzban" true, Ev.down true, Ev.upAll true]) ∧
    ((run_restore_process (envFinalRestart true true)).2.all
        (fun ev => !ev.isDropCreate)) = true :=
  C7_amended (envFinalRestart true true) "marzban-mysql-1" (by decide)
    (by decide) rfl rfl rfl rfl rfl (by decide) rfl

/-- Claim C8 is false of the code in its "exits 0 only on full success"
part: when everything succeeds except the final `up -d` of the closing
restart — so the run ends with the service group stopped or failed to start —
`run_restore_process` still returns `True` and `do-restore` exits 0. -/
theorem C8_counterexample :
    do_restore_exit (envFinalRestart true false) = 0 ∧
    (run_restore_process (envFinalRestart true false)).2.getLast?
      = some (Ev.upAll false) := by
  constructor <;> decide

/-- Claim C8 (amended): whenever the restore run fails — which any checked
step before the final restart causes — the last action of the run is the
best-effort safety-net `up -d` and the `do-restore` process exits 1.  (Exit 0
means only that every checked step succeeded; a failed final restart still
exits 0, see C9.) -/
theorem C8_amended (e : RestoreEnv)
    (h : (run_restore_process e).1 = false) :
    do_restore_exit e = 1 ∧
    ((run_restore_process e).2.getLast?.map Ev.isUpAll) = some true := by
  constructor
  · unfold do_restore_exit
    simp [h]
  · unfold run_restore_process at h ⊢
    cases htb : tryBody e with
    | ok tr => rw [htb] at h; simp at h
    | error p =>
        obtain ⟨n, tr⟩ := p
        simp [List.getLast?_concat, Ev.isUpAll]

/-- Witness for C8 (amended): a run whose initial `down` fails exits 1 after
the safety-net `up -d`. -/
theorem C8_amended_witness :
    do_restore_exit envDownFails = 1 ∧
    ((run_restore_process envDownFails).2.getLast?.map Ev.isUpAll)
      = some true :=
  C8_amended envDownFails (by decide)

/-- Claim C9: whatever the outcomes `b1` of the final `down` and `b2` of the
final `up -d`, a restore whose earlier steps all succeeded returns `True` and
`do-restore` exits 0 — in particular exit 0 does not imply the services are
running. -/
theorem C9_theorem : ∀ b1 b2 : Bool,
    run_restore_process (envFinalRestart b1 b2) =
      (true, [Ev.down true, Ev.copyFsToRoot, Ev.clearMysqlDir, Ev.upAll true,
              Ev.findContainer (some "marzban-mysql-1"), Ev.testConn true,
              Ev.importSql "marzban" true, Ev.down b1, Ev.upAll b2]) ∧
    do_restore_exit (envFinalRestart b1 b2) = 0 := by
  intro b1 b2
  cases b1 <;> cases b2 <;> exact ⟨by decide, by decide⟩

/-- Claim C10: every import event any restore run can issue targets the
`marzban` schema, and an archive whose database directory holds no file named
`marzban.sql` leads to no import at all. -/
theorem C10_theorem (e : RestoreEnv) :
    ((run_restore_process e).2.all Ev.importOnlyMarzban) = true ∧
    (hasMarzbanSql e.zipNames = false →
      ((run_restore_process e).2.all (fun ev => !ev.isImportEv)) = true) := by
  constructor
  · have h := run_restore_events_benign e
    rw [List.all_eq_true] at h ⊢
    intro x hx
    have hb := h x hx
    simp [Bool.and_eq_true] at hb
    exact hb.2
  · intro h
    unfold run_restore_process tryBody
    cases hc : e.container <;> split_ifs <;>
      simp_all [List.all_append, Ev.isImportEv]

/-- Witness for C10 at an archive holding a dump named `shadowsocks.sql` but
no `marzban.sql`: no import event occurs. -/
theorem C10_witness :
    hasMarzbanSql envOtherDumpsOnly.zipNames = false ∧
    ((run_restore_process envOtherDumpsOnly).2.all (fun ev => !ev.isImportEv))
      = true :=
  ⟨by decide, (C10_theorem envOtherDumpsOnly).2 (by decide)⟩

/-! ## Claim C4: filesystem restore merges, it does not delete-then-copy -/

/-- Per-file content of `/` before the restore: a stale file under the
destination of the staged logical tree `opt/marzban`, plus an unrelated
system file. -/
def rootFsBefore : FileMap :=
  [(["opt", "marzban", "stale.txt"], "old"), (["etc", "hostname"], "host")]

/-- The staged `filesystem/` tree extracted from the archive. -/
def stagedFs : FileMap :=
  [(["opt", "marzban", "docker-compose.yml"], "new")]

/-- Claim C4 is false of the code: the staged archive contains the logical
tree `opt/marzban`, its real destination already exists (it holds
`stale.txt`), yet after `shutil.copytree(..., "/", dirs_exist_ok=True)` the
pre-existing `stale.txt` — absent from the staged tree — is still there: the
destination was merged with, not deleted in full. -/
theorem C4_counterexample :
    pLookup (copytreeMergeInto stagedFs rootFsBefore)
        ["opt", "marzban", "stale.txt"] = some "old" ∧
    pLookup stagedFs ["opt", "marzban", "stale.txt"] = none ∧
    (stagedFs.any (fun f => f.1.take 2 == ["opt", "marzban"])) = true := by
  refine ⟨by decide, by decide, by decide⟩

theorem find?_filter_of_imp {α : Type} (l : List α) (r q : α → Bool)
    (h : ∀ e, r e = true → q e = true) :
    (l.filter q).find? r = l.find? r := by
  induction l with
  | nil => rfl
  | cons a t ih =>
      by_cases hr : r a = true
      · have hq := h a hr
        simp [List.filter_cons, hq, List.find?_cons, hr, ih]
      · by_cases hq : q a = true <;>
          simp [List.filter_cons, hq, List.find?_cons, hr, ih]

theorem find?_append_left {α : Type} (l t : List α) (r : α → Bool) (v : α)
    (h : l.find? r = some v) : (l ++ t).find? r = some v := by
  induction l with
  | nil => simp [List.find?] at h
  | cons a u ih =>
      by_cases hr : r a = true <;>
        simp_all [List.find?_cons, hr]

theorem find?_append_right {α : Type} (l t : List α) (r : α → Bool)
    (h : l.find? r = none) : (l ++ t).find? r = t.find? r := by
  induction l with
  | nil => simp
  | cons a u ih =>
      by_cases hr : r a = true <;>
        simp_all [List.find?_cons, hr]

/-- Claim C4 (amended): the restore's filesystem step merges the staged tree
into `/` with `dirs_exist_ok=True` — a restored file wins at its own path,
and every pre-existing file at any other path survives; no destination is
deleted beforehand.  (Only the MySQL data directory is cleared, separately
and only when the archive holds database dumps.) -/
theorem C4_amended (src dest : FileMap) (p : List String) :
    pLookup (copytreeMergeInto src dest) p
      = ((pLookup src p).or (pLookup dest p)) := by
  unfold copytreeMergeInto pLookup
  cases hs : src.find? (fun e => e.1 == p) with
  | some v =>
      rw [find?_append_left _ _ _ v hs]
      simp
  | none =>
      rw [find?_append_right _ _ _ hs]
      rw [find?_filter_of_imp]
      · simp
      · intro f hf
        have hfp : f.1 = p := by simpa using hf
        have hnone := List.find?_eq_none.mp hs
        simp only [hfp, Bool.not_eq_true']
        rw [List.any_eq_false]
        exact hnone

/-! ## Claim C5: the snapshot exclusion rule -/

/-- Claim C5 is false of the code in its "all other configured source trees
are copied unfiltered" part: the exclusion callback is passed to the copy of
every configured tree and triggers for any directory named `marzban` whose
path contains `lib`, so a file under `somelib/marzban/mysql/` inside
`/opt/marzban` — a tree that does not host the live database storage — is
silently dropped from the snapshot. -/
theorem C5_counterexample :
    snapshotTree "/opt/marzban"
        [(["somelib", "marzban", "mysql", "data.ibd"], "x")] = [] ∧
    ([(["somelib", "marzban", "mysql", "data.ibd"], "x")] : FileMap) ≠ [] := by
  constructor <;> decide

/-- Claim C5 (amended): after the snapshot no file of the live database
storage directory (`mysql`) or the log directory (`logs`) of the app-state
tree `/var/lib/marzban` appears in its staged copy — but the exclusion
predicate itself is passed to every tree copy and self-gates on the directory
path (basename `marzban`, path containing `lib`), so other configured trees
are not guaranteed to be copied unfiltered (see the counterexample). -/
theorem C5_amended (files : FileMap) (f : List String × String)
    (hf : f ∈ snapshotTree "/var/lib/marzban" files) :
    f.1.head? ≠ some "mysql" ∧ f.1.head? ≠ some "logs" := by
  have hkept : keptPath "/var/lib/marzban" f.1 = true := by
    have hm := List.mem_filter.mp hf
    simpa using hm.2
  constructor <;> intro hc
  · cases hcs : f.1 with
    | nil => rw [hcs] at hc; simp at hc
    | cons c rest =>
        rw [hcs] at hc hkept
        simp at hc
        subst hc
        simp [keptPath] at hkept
        exact hkept.1 (by decide)
  · cases hcs : f.1 with
    | nil => rw [hcs] at hc; simp at hc
    | cons c rest =>
        rw [hcs] at hc hkept
        simp at hc
        subst hc
        simp [keptPath] at hkept
        exact hkept.1 (by decide)

/-- A concrete app-state tree: live database storage, logs, and a config. -/
def appStateFiles : FileMap :=
  [(["mysql", "ib_logfile0"], "binary"), (["logs", "app.log"], "log"),
   (["xray_config.json"], "cfg")]

/-- Witness for C5 (amended): the surviving config file of the app-state
snapshot is under neither `mysql` nor `logs`. -/
theorem C5_amended_witness :
    ((["xray_config.json"], "cfg")
        ∈ snapshotTree "/var/lib/marzban" appStateFiles) ∧
    ((["xray_config.json"] : List String).head? ≠ some "mysql" ∧
      (["xray_config.json"] : List String).head? ≠ some "logs") :=
  ⟨by decide, C5_amended appStateFiles (["xray_config.json"], "cfg") (by decide)⟩

/-! ## Claim C2: archive member layout of `run_full_backup` -/

/-- A backup run that dumps one database and finds no existing source path. -/
def envBackupDbOnly : BackupEnv :=
  { container := some "marzban-mysql-1"
  , configHasDb := true
  , showDatabases := ["marzban"]
  , sourceTree := fun _ => none }

/-- A backup run with one database dump and one file under `/opt/marzban`. -/
def envBackupFull : BackupEnv :=
  { container := some "marzban-mysql-1"
  , configHasDb := true
  , showDatabases := ["marzban", "mysql"]
  , sourceTree := fun p =>
      if p == "/opt/marzban" then some [(["docker-compose.yml"], "svc")]
      else none }

/-- Claim C2 is false of the code in its dump-member naming: a backup of one
database yields the member `database/marzban.sql`, which lies under neither
the claimed `db_dumps/` nor `filesystem/`. -/
theorem C2_counterexample :
    archiveMembers envBackupDbOnly = ["database/marzban.sql"] ∧
    strHasPrefix "db_dumps/" "database/marzban.sql" = false ∧
    strHasPrefix "filesystem/" "database/marzban.sql" = false := by
  refine ⟨by decide, by decide, by decide⟩

theorem fsMembersAt_prefix (e : BackupEnv) (absPath m : String)
    (hm : m ∈ fsMembersAt e absPath) :
    ("filesystem/" : String).data <+: m.data := by
  unfold fsMembersAt at hm
  cases ht : e.sourceTree absPath with
  | none => rw [ht] at hm; simp at hm
  | some files =>
      rw [ht] at hm
      obtain ⟨f, hf, rfl⟩ := List.mem_map.mp hm
      have h1 : ("filesystem/" : String).data
          <+: ("filesystem/" ++ lstripSlash absPath).data := by
        rw [str_data_append]
        exact List.prefix_append ..
      exact h1.trans
        (prefix_joinComponents f.1 ("filesystem/" ++ lstripSlash absPath))

/-- Claim C2 (amended): every member of the archive produced by
`run_full_backup` is a relative path under `database/` (the dump files) or
under `filesystem/` (the snapshotted trees, keyed by the source path with its
leading slash stripped); no member is an absolute path and there is no
enclosing root directory. -/
theorem C2_amended (e : BackupEnv) (m : String)
    (hm : m ∈ archiveMembers e) :
    (strHasPrefix "database/" m = true ∨ strHasPrefix "filesystem/" m = true) ∧
    strHasPrefix "/" m = false := by
  unfold archiveMembers at hm
  rcases List.mem_append.mp hm with hml | hfs2
  · rcases List.mem_append.mp hml with hdb | hfs1
    · unfold dumpMembers at hdb
      split at hdb
      · obtain ⟨d, hd, rfl⟩ := List.mem_map.mp hdb
        have hpre : ("database/" : String).data
            <+: (("database/" ++ d) ++ ".sql").data := by
          rw [str_data_append, str_data_append, List.append_assoc]
          exact List.prefix_append ..
        exact ⟨Or.inl ((strHasPrefix_iff ..).mpr hpre),
          slash_not_prefix _ _ hpre (by decide) (by decide)⟩
      · simp at hdb
    · have hpre := fsMembersAt_prefix e "/var/lib/marzban" m hfs1
      exact ⟨Or.inr ((strHasPrefix_iff ..).mpr hpre),
        slash_not_prefix _ _ hpre (by decide) (by decide)⟩
  · have hpre := fsMembersAt_prefix e "/opt/marzban" m hfs2
    exact ⟨Or.inr ((strHasPrefix_iff ..).mpr hpre),
      slash_not_prefix _ _ hpre (by decide) (by decide)⟩

/-- Witness for C2 (amended) at a concrete backup with a dump and a
filesystem member. -/
theorem C2_amended_witness :
    ("filesystem/opt/marzban/docker-compose.yml" ∈ archiveMembers envBackupFull) ∧
    ((strHasPrefix "database/" "filesystem/opt/marzban/docker-compose.yml" = true ∨
        strHasPrefix "filesystem/" "filesystem/opt/marzban/docker-compose.yml" = true) ∧
      strHasPrefix "/" "filesystem/opt/marzban/docker-compose.yml" = false) :=
  ⟨by decide,
   C2_amended envBackupFull "filesystem/opt/marzban/docker-compose.yml" (by decide)⟩

/-! ## Claim C6: container discovery -/

/-- Claim C6 is false of the code: with one running container whose image is
`mysql:8` but whose line does not mention `marzban`, the grep match list is
non-empty, yet `find_database_container` returns `None` instead of the first
match. -/
theorem C6_counterexample :
    find_database_container ["db1 mysql:8"] = none ∧
    (grepDb ["db1 mysql:8"]).isEmpty = false := by
  constructor <;> decide

theorem find?_filter_isSome {α : Type} (l : List α) (q p : α → Bool) :
    ((l.filter q).find? p).isSome = l.any (fun x => q x && p x) := by
  rw [Bool.eq_iff_iff]
  constructor
  · intro h
    rw [List.find?_isSome] at h
    obtain ⟨x, hx, hpx⟩ := h
    have hxm := List.mem_filter.mp hx
    rw [List.any_eq_true]
    exact ⟨x, hxm.1, by simp [hxm.2, hpx]⟩
  · intro h
    rw [List.any_eq_true] at h
    obtain ⟨x, hx, hqp⟩ := h
    simp only [Bool.and_eq_true] at hqp
    rw [List.find?_isSome]
    exact ⟨x, List.mem_filter.mpr ⟨hx, hqp.1⟩, hqp.2⟩

/-- Claim C6 (amended): `find_database_container` returns the first
whitespace-delimited token of the first `name image` line that both matches
the database-engine pattern (`mysql` or `mariadb` anywhere in the combined
line, not only the image) and whose lowercase form contains `marzban`; it
returns `None` exactly when no line does both — in particular also when
database matches exist but none mentions `marzban`. -/
theorem C6_amended (lines : List String) :
    find_database_container lines
        = ((grepDb lines).find? marzbanLine).map firstToken ∧
    (find_database_container lines).isSome
        = lines.any (fun l =>
            (strContains "mysql" l || strContains "mariadb" l)
              && marzbanLine l) := by
  have h1 : find_database_container lines
      = ((grepDb lines).find? marzbanLine).map firstToken := by
    unfold find_database_container
    cases hg : grepDb lines with
    | nil => simp [hg]
    | cons a t =>
        simp only [hg]
        cases hf : (a :: t).find? marzbanLine <;> simp [hf]
  refine ⟨h1, ?_⟩
  have h2 : ((grepDb lines).find? marzbanLine).isSome
      = lines.any (fun l =>
          (strContains "mysql" l || strContains "mariadb" l)
            && marzbanLine l) :=
    find?_filter_isSome ..
  rw [h1, ← h2]
  cases (grepDb lines).find? marzbanLine <;> rfl
